import Mathlib

/-!
Verification of the DailySEOFeed feed-generator core against its
natural-language specification.

The Python sources are shallowly embedded: pure functions become Lean
functions, the code's float arithmetic is carried out over ℚ (with the one
transcendental — the logistic time-decay curve — modelled over ℝ via
`Real.exp`), per-item mutable state becomes explicit state passing, and
fallible paths are made total in exactly the way the code's exception
handlers make them total.  Strings that the code splits and compares
(cursors, cids) are handled at the character-list level so that every
definition evaluates inside the kernel.
-/

/- ------------------------------------------------------------------
Configuration (`server/config.py`): the `rank_config` dictionary and the
module-level constants, with the default values used when no environment
override is present.
------------------------------------------------------------------ -/

/-- Ranking configuration `rank_config` from `server/config.py` together
with the module constant `POST_LIFETIME_HOURS`; field defaults are the
code's defaults (weights 2/3/1, component weights 0.4/0.4/0.3, decay
midpoint 12h, decay rate 4, one 4-hour velocity window, minimum score
0.01, minimum distinct engaged authors 2, 24h post lifetime). -/
structure RankConfig where
  WEIGHT_LIKES : ℚ := 2
  WEIGHT_REPOSTS : ℚ := 3
  WEIGHT_COMMENTS : ℚ := 1
  BASE_ENGAGEMENT : ℚ := 2/5
  QUORUM : ℚ := 2/5
  VELOCITY : ℚ := 3/10
  DECAY_MIDPOINT : ℚ := 12
  DECAY_RATE : ℚ := 4
  RECENT_INTERACTION_WINDOW : ℚ := 4
  MIN_ENGAGEMENT_SCORE : ℚ := 1/100
  MIN_AUTHOR_ENGAGEMENT : ℕ := 2
  POST_LIFETIME_HOURS : ℚ := 24

/-- Distinguished end-of-results cursor `CURSOR_EOF = "eof"` from
`server/config.py`. -/
def CURSOR_EOF : String := "eof"

/-- Default configuration instance (all environment overrides absent). -/
def defaultConfig : RankConfig := {}

/- ------------------------------------------------------------------
Engagement aggregator (`server/data_filter.py`,
`AuthorEngagementTracker.update_engagement`), restricted to one existing
item: the per-row state mutated inside the `db.atomic()` block.
------------------------------------------------------------------ -/

/-- Engagement state of one persisted `Post` row: the three counters, the
quorum list `engaged_authors` and the append-only
`interaction_timestamps` list (ISO strings in the code). -/
structure ItemState where
  likes_count : ℕ
  reposts_count : ℕ
  replies_count : ℕ
  engaged_authors : List String
  interaction_timestamps : List String

/-- `AuthorEngagementTracker.update_engagement` from
`server/data_filter.py` for an already-existing item: increment the
counter selected by `engagement_type`; if `author_did` is truthy (a
non-empty string in Python) and not yet in `engaged_authors`, append it
and append the current ISO timestamp.  The guard
`if not uri or not engagement_type: return` is mirrored by the first
branch (the fixed item's uri is non-empty). -/
def update_engagement (s : ItemState) (engagement_type : String)
    (author_did : Option String) (now_iso : String) : ItemState :=
  if engagement_type = "" then s
  else
    let s1 :=
      if engagement_type = "like" then { s with likes_count := s.likes_count + 1 }
      else if engagement_type = "repost" then { s with reposts_count := s.reposts_count + 1 }
      else if engagement_type = "reply" then { s with replies_count := s.replies_count + 1 }
      else s
    match author_did with
    | some a =>
        if a ≠ "" ∧ a ∉ s.engaged_authors then
          { s1 with engaged_authors := s1.engaged_authors ++ [a],
                    interaction_timestamps := s1.interaction_timestamps ++ [now_iso] }
        else s1
    | none => s1

/-- One qualifying engagement event delivered to the aggregator: the
engagement kind string, the acting author's DID, and the ISO timestamp the
ad-hoc update would record. -/
structure EngEvent where
  kind : String
  actor : String
  at_iso : String

/-- Sequential application of a list of engagement events to one item
(the per-key lock in the code linearizes concurrent calls for the same
uri, so any interleaving is some such sequence). -/
def apply_events (s : ItemState) (evs : List EngEvent) : ItemState :=
  evs.foldl (fun st e => update_engagement st e.kind (some e.actor) e.at_iso) s

/-- Zero state created by `Post.create` on first sight of an item:
all counters 0, empty quorum list, empty timestamp list. -/
def initial_item : ItemState :=
  { likes_count := 0, reposts_count := 0, replies_count := 0,
    engaged_authors := [], interaction_timestamps := [] }

lemma update_engagement_likes (s : ItemState) (k : String) (a : Option String)
    (t : String) :
    (update_engagement s k a t).likes_count
      = s.likes_count + (if k = "like" then 1 else 0) := by
  unfold update_engagement
  split_ifs with h1 h2 <;> cases a <;> simp_all <;> (try (split_ifs <;> simp_all))

lemma update_engagement_reposts (s : ItemState) (k : String) (a : Option String)
    (t : String) :
    (update_engagement s k a t).reposts_count
      = s.reposts_count + (if k = "repost" then 1 else 0) := by
  unfold update_engagement
  split_ifs with h1 h2 h3 <;> cases a <;> simp_all <;> (try (split_ifs <;> simp_all))

lemma update_engagement_replies (s : ItemState) (k : String) (a : Option String)
    (t : String) :
    (update_engagement s k a t).replies_count
      = s.replies_count + (if k = "reply" then 1 else 0) := by
  unfold update_engagement
  split_ifs with h1 h2 h3 h4 <;> cases a <;> simp_all <;> (try (split_ifs <;> simp_all))

lemma update_engagement_engaged (s : ItemState) (k : String) (a : String)
    (t : String) :
    (update_engagement s k (some a) t).engaged_authors
      = if k ≠ "" ∧ a ≠ "" ∧ a ∉ s.engaged_authors
        then s.engaged_authors ++ [a] else s.engaged_authors := by
  unfold update_engagement
  split_ifs <;> simp_all <;> (try (split_ifs <;> simp_all))

lemma update_engagement_ts_some (s : ItemState) (k : String) (a : String)
    (t : String) :
    (update_engagement s k (some a) t).interaction_timestamps
      = if k ≠ "" ∧ a ≠ "" ∧ a ∉ s.engaged_authors
        then s.interaction_timestamps ++ [t] else s.interaction_timestamps := by
  unfold update_engagement
  split_ifs <;> simp_all <;> (try (split_ifs <;> simp_all))

lemma update_engagement_ts_none (s : ItemState) (k t : String) :
    (update_engagement s k none t).interaction_timestamps
      = s.interaction_timestamps := by
  unfold update_engagement
  split_ifs <;> simp_all

lemma apply_events_counts (evs : List EngEvent) (s : ItemState) :
    (apply_events s evs).likes_count
        = s.likes_count + evs.countP (fun e => e.kind == "like")
      ∧ (apply_events s evs).reposts_count
        = s.reposts_count + evs.countP (fun e => e.kind == "repost")
      ∧ (apply_events s evs).replies_count
        = s.replies_count + evs.countP (fun e => e.kind == "reply") := by
  induction evs generalizing s with
  | nil => simp [apply_events]
  | cons e rest ih =>
    have h := ih (update_engagement s e.kind (some e.actor) e.at_iso)
    simp only [apply_events, List.foldl_cons] at h ⊢
    rcases h with ⟨h1, h2, h3⟩
    refine ⟨?_, ?_, ?_⟩ <;>
      simp [h1, h2, h3, update_engagement_likes, update_engagement_reposts,
        update_engagement_replies, List.countP_cons] <;>
      split_ifs <;> simp_all <;> omega

lemma apply_events_quorum (evs : List EngEvent) (s : ItemState)
    (hk : ∀ e ∈ evs, e.kind ≠ "" ∧ e.actor ≠ "")
    (hnd : s.engaged_authors.Nodup) :
    (apply_events s evs).engaged_authors.toFinset
        = s.engaged_authors.toFinset ∪ (evs.map EngEvent.actor).toFinset
      ∧ (apply_events s evs).engaged_authors.Nodup := by
  induction evs generalizing s with
  | nil => simp [apply_events, hnd]
  | cons e rest ih =>
    obtain ⟨hke, hae⟩ := hk e (by simp)
    have hstep := update_engagement_engaged s e.kind e.actor e.at_iso
    have hengaged :
        (update_engagement s e.kind (some e.actor) e.at_iso).engaged_authors.toFinset
          = s.engaged_authors.toFinset ∪ {e.actor} := by
      rw [hstep]
      split_ifs with hc
      · simp [List.toFinset_append]
      · push_neg at hc
        have : e.actor ∈ s.engaged_authors := hc hke hae
        ext x
        simp only [List.mem_toFinset, Finset.mem_union, Finset.mem_singleton]
        constructor
        · intro hx; exact Or.inl hx
        · rintro (hx | rfl) <;> simp_all
    have hnd' :
        (update_engagement s e.kind (some e.actor) e.at_iso).engaged_authors.Nodup := by
      rw [hstep]
      split_ifs with hc
      · simp [List.nodup_append, hnd, hc.2]
      · exact hnd
    have h := ih (update_engagement s e.kind (some e.actor) e.at_iso)
      (fun x hx => hk x (by simp [hx])) hnd'
    simp only [apply_events, List.foldl_cons] at h ⊢
    refine ⟨?_, h.2⟩
    rw [h.1, hengaged]
    ext x
    simp only [Finset.mem_union, List.mem_toFinset, Finset.mem_singleton,
      List.map_cons, List.toFinset_cons, Finset.mem_insert]
    tauto

lemma apply_events_ts_len (evs : List EngEvent) (s : ItemState)
    (h : s.interaction_timestamps.length = s.engaged_authors.length) :
    (apply_events s evs).interaction_timestamps.length
      = (apply_events s evs).engaged_authors.length := by
  induction evs generalizing s with
  | nil => simpa [apply_events] using h
  | cons e rest ih =>
    simp only [apply_events, List.foldl_cons] at ih ⊢
    apply ih
    rw [update_engagement_ts_some, update_engagement_engaged]
    split_ifs <;> simp [h]

/-- C3: for every sequence of qualifying engagement events (kinds among
like/repost/reply, non-empty actor DIDs) applied to one item starting from
the zero state, the quorum list has exactly one entry per distinct acting
author, it holds no duplicates, and each of the three counters equals the
exact number of events of its kind. -/
theorem c3_engagement_aggregation (evs : List EngEvent)
    (h : ∀ e ∈ evs,
      (e.kind = "like" ∨ e.kind = "repost" ∨ e.kind = "reply") ∧ e.actor ≠ "") :
    (apply_events initial_item evs).engaged_authors.length
        = (evs.map EngEvent.actor).toFinset.card
      ∧ (apply_events initial_item evs).engaged_authors.Nodup
      ∧ (apply_events initial_item evs).likes_count
        = evs.countP (fun e => e.kind == "like")
      ∧ (apply_events initial_item evs).reposts_count
        = evs.countP (fun e => e.kind == "repost")
      ∧ (apply_events initial_item evs).replies_count
        = evs.countP (fun e => e.kind == "reply") := by
  have hk : ∀ e ∈ evs, e.kind ≠ "" ∧ e.actor ≠ "" := by
    intro e he
    obtain ⟨hkind, ha⟩ := h e he
    refine ⟨?_, ha⟩
    rcases hkind with h1 | h1 | h1 <;> simp [h1]
  obtain ⟨hfin, hnd⟩ := apply_events_quorum evs initial_item hk (by simp [initial_item])
  obtain ⟨hl, hr, hc⟩ := apply_events_counts evs initial_item
  refine ⟨?_, hnd, ?_, ?_, ?_⟩
  · rw [← List.toFinset_card_of_nodup hnd, hfin]
    simp [initial_item]
  · simpa [initial_item] using hl
  · simpa [initial_item] using hr
  · simpa [initial_item] using hc

/-- Witness for C3 at a concrete event sequence: three events (a like and
a repost from `did:x`, a reply from `did:y`) yield a quorum list of length
2 (= number of distinct actors), no duplicate quorum entries, and counters
1/1/1. -/
theorem c3_engagement_aggregation_witness :
    (∀ e ∈ [EngEvent.mk "like" "did:x" "t1", EngEvent.mk "repost" "did:x" "t2",
        EngEvent.mk "reply" "did:y" "t3"],
      (e.kind = "like" ∨ e.kind = "repost" ∨ e.kind = "reply") ∧ e.actor ≠ "")
    ∧ ((apply_events initial_item
          [EngEvent.mk "like" "did:x" "t1", EngEvent.mk "repost" "did:x" "t2",
            EngEvent.mk "reply" "did:y" "t3"]).engaged_authors.length
        = ([EngEvent.mk "like" "did:x" "t1", EngEvent.mk "repost" "did:x" "t2",
            EngEvent.mk "reply" "did:y" "t3"].map EngEvent.actor).toFinset.card
      ∧ (apply_events initial_item
          [EngEvent.mk "like" "did:x" "t1", EngEvent.mk "repost" "did:x" "t2",
            EngEvent.mk "reply" "did:y" "t3"]).engaged_authors.Nodup
      ∧ (apply_events initial_item
          [EngEvent.mk "like" "did:x" "t1", EngEvent.mk "repost" "did:x" "t2",
            EngEvent.mk "reply" "did:y" "t3"]).likes_count
        = [EngEvent.mk "like" "did:x" "t1", EngEvent.mk "repost" "did:x" "t2",
            EngEvent.mk "reply" "did:y" "t3"].countP (fun e => e.kind == "like")
      ∧ (apply_events initial_item
          [EngEvent.mk "like" "did:x" "t1", EngEvent.mk "repost" "did:x" "t2",
            EngEvent.mk "reply" "did:y" "t3"]).reposts_count
        = [EngEvent.mk "like" "did:x" "t1", EngEvent.mk "repost" "did:x" "t2",
            EngEvent.mk "reply" "did:y" "t3"].countP (fun e => e.kind == "repost")
      ∧ (apply_events initial_item
          [EngEvent.mk "like" "did:x" "t1", EngEvent.mk "repost" "did:x" "t2",
            EngEvent.mk "reply" "did:y" "t3"]).replies_count
        = [EngEvent.mk "like" "did:x" "t1", EngEvent.mk "repost" "did:x" "t2",
            EngEvent.mk "reply" "did:y" "t3"].countP (fun e => e.kind == "reply")) :=
  ⟨by decide, c3_engagement_aggregation _ (by decide)⟩

/-- C10: the interaction-timestamp list always has exactly the length of
the quorum list on every state reachable from the zero state, because a
single update appends a timestamp exactly when it records a new distinct
truthy actor, and appends nothing when the actor is already recorded,
empty, or absent. -/
theorem c10_timestamp_quorum_invariant :
    (∀ evs : List EngEvent,
        (apply_events initial_item evs).interaction_timestamps.length
          = (apply_events initial_item evs).engaged_authors.length)
      ∧ (∀ (s : ItemState) (k a t : String),
          (update_engagement s k (some a) t).interaction_timestamps
            = if k ≠ "" ∧ a ≠ "" ∧ a ∉ s.engaged_authors
              then s.interaction_timestamps ++ [t]
              else s.interaction_timestamps)
      ∧ (∀ (s : ItemState) (k t : String),
          (update_engagement s k none t).interaction_timestamps
            = s.interaction_timestamps) :=
  ⟨fun evs => apply_events_ts_len evs initial_item (by simp [initial_item]),
    update_engagement_ts_some, update_engagement_ts_none⟩

/- ------------------------------------------------------------------
Event filter and router (`server/data_stream.py`, `process_event`).
------------------------------------------------------------------ -/

/-- Module constant `INTERESTED_COLLECTIONS` from `server/data_stream.py`. -/
def INTERESTED_COLLECTIONS : List String :=
  ["app.bsky.feed.like", "app.bsky.feed.post", "app.bsky.feed.repost"]

/-- Decoded `record` body of a commit: the `"$type"` declaration, the
`subject.uri` of a like/repost, whether a `"reply"` key is present, and
the reply's `parent.uri`.  Absent JSON keys are `none`. -/
structure JetRecord where
  rtype : Option String := none
  subject_uri : Option String := none
  has_reply : Bool := false
  reply_parent_uri : Option String := none

/-- Decoded `commit` payload of a Jetstream event. -/
structure JetCommit where
  collection : Option String := none
  operation : Option String := none
  record : Option JetRecord := none

/-- Decoded Jetstream event: kind, originating DID, commit payload, and
the `time_us` stream position used for cursor persistence. -/
structure JetEvent where
  kind : Option String := none
  did : Option String := none
  commit : Option JetCommit := none
  time_us : Option ℕ := none

/-- Subject-URI extraction of `process_event`: the record's `subject.uri`
for likes and reposts, the reply's `parent.uri` for posts carrying a
`"reply"` key, `none` otherwise. -/
def subject_uri_of (collection : String) (record : JetRecord) : Option String :=
  if collection = "app.bsky.feed.like" then record.subject_uri
  else if collection = "app.bsky.feed.repost" then record.subject_uri
  else if collection = "app.bsky.feed.post" ∧ record.has_reply = true then
    record.reply_parent_uri
  else none

/-- Collection-to-engagement-kind dictionary of `process_event`
(`app.bsky.feed.post` maps to `"reply"`); only ever applied to members of
`INTERESTED_COLLECTIONS`. -/
def engagement_type_of (collection : String) : String :=
  if collection = "app.bsky.feed.like" then "like"
  else if collection = "app.bsky.feed.repost" then "repost"
  else "reply"

/-- `process_event` from `server/data_stream.py` as a pure filter.  The
first component is the (subject-uri, engagement-kind, actor-DID) triple
handed to `tracker.update_engagement`, or `none` when the event is
discarded; the second component records whether the discard path emitted
a `logger.warning` entry (the non-commit early return and the
missing/empty-subject paths return silently; the success path's
`logger.info` is not a failed-check warning).  The Python falsy test
`if not commit` is modelled by the `none` case, and `is_author` of a
missing DID is false. -/
def process_event (registry : List String) (ev : JetEvent) :
    Option (String × String × String) × Bool :=
  if ev.kind ≠ some "commit" then (none, false)
  else
    match ev.commit with
    | none => (none, true)
    | some commit =>
      match ev.did with
      | none => (none, true)
      | some d =>
        if d ∉ registry then (none, true)
        else
          match commit.collection with
          | none => (none, true)
          | some c =>
            if c ∉ INTERESTED_COLLECTIONS then (none, true)
            else if commit.operation ≠ some "create" then (none, true)
            else if (commit.record.getD {}).rtype ≠ some c then (none, true)
            else
              match subject_uri_of c (commit.record.getD {}) with
              | none => (none, false)
              | some u =>
                if u = "" then (none, false)
                else (some (u, engagement_type_of c, d), false)

/-- C7 (counterexample to the claim as stated): an event whose kind is
`"identity"` fails the first check and is discarded, but `process_event`
returns without any log entry (the `kind != "commit"` early return logs
nothing), refuting "every failed check discards the event with a log
entry". -/
theorem c7_silent_discard_counterexample :
    (process_event ["did:a"] { kind := some "identity" }).1 = none
      ∧ (process_event ["did:a"] { kind := some "identity" }).2 = false := by
  constructor <;> rfl

/-- C7 (amended): `process_event` produces an engagement triple exactly
when the event kind is `"commit"`, the actor DID is in the trusted
registry, the collection is one of like/post/repost, the operation is
`"create"`, the record's declared `$type` equals the collection, and the
subject extraction (subject URI for like/repost, reply-parent URI for
replies) yields a non-empty URI; no failure path propagates an error, but
the event-kind check and the missing/empty-subject paths discard silently
rather than with a log entry. -/
theorem c7_filter_amended (registry : List String) (ev : JetEvent) :
    (∀ u k a, (process_event registry ev).1 = some (u, k, a) ↔
      (ev.kind = some "commit"
        ∧ ∃ commit, ev.commit = some commit
          ∧ ev.did = some a ∧ a ∈ registry
          ∧ ∃ c, commit.collection = some c ∧ c ∈ INTERESTED_COLLECTIONS
            ∧ commit.operation = some "create"
            ∧ (commit.record.getD {}).rtype = some c
            ∧ subject_uri_of c (commit.record.getD {}) = some u ∧ u ≠ ""
            ∧ k = engagement_type_of c))
    ∧ (ev.kind ≠ some "commit" → process_event registry ev = (none, false)) := by
  constructor
  · intro u k a
    by_cases hkind : ev.kind = some "commit"
    · rcases hcm : ev.commit with _ | commit
      · simp [process_event, hkind, hcm]
      · rcases hdid : ev.did with _ | d
        · simp [process_event, hkind, hcm, hdid]
        · by_cases hreg : d ∈ registry
          · rcases hcol : commit.collection with _ | c
            · simp [process_event, hkind, hcm, hdid, hcol, hreg]
            · by_cases hint : c ∈ INTERESTED_COLLECTIONS
              · by_cases hop : commit.operation = some "create"
                · by_cases hrt : (commit.record.getD {}).rtype = some c
                  · rcases hsub : subject_uri_of c (commit.record.getD {}) with _ | uu
                    · simp [process_event, hkind, hcm, hdid, hreg, hcol, hint,
                        hop, hrt, hsub]
                    · by_cases hemp : uu = ""
                      · simp [process_event, hkind, hcm, hdid, hreg, hcol, hint,
                          hop, hrt, hsub, hemp]
                        intro _ _ h1 h2
                        exact (h2 h1.symm).elim
                      · have hval : (process_event registry ev).1
                            = some (uu, engagement_type_of c, d) := by
                          simp [process_event, hkind, hcm, hdid, hreg, hcol,
                            hint, hop, hrt, hsub, hemp]
                        rw [hval]
                        simp only [Option.some.injEq, Prod.mk.injEq]
                        constructor
                        · rintro ⟨rfl, rfl, rfl⟩
                          exact ⟨hkind, commit, rfl, rfl, hreg, c, hcol, hint,
                            hop, hrt, hsub, hemp, rfl⟩
                        · rintro ⟨-, commit₁, hcm₁, hdid₁, hreg₁, c₁, hcol₁,
                            hint₁, hop₁, hrt₁, hsub₁, hemp₁, hk₁⟩
                          subst hcm₁
                          subst hdid₁
                          rw [hcol] at hcol₁
                          injection hcol₁ with h₃
                          subst h₃
                          rw [hsub] at hsub₁
                          injection hsub₁ with h₄
                          exact ⟨h₄, hk₁.symm, rfl⟩
                  · simp [process_event, hkind, hcm, hdid, hreg, hcol, hint, hop, hrt]
                · simp [process_event, hkind, hcm, hdid, hreg, hcol, hint, hop]
              · simp [process_event, hkind, hcm, hdid, hreg, hcol, hint]
          · simp [process_event, hkind, hcm, hdid, hreg]
            rintro rfl h2
            exact (hreg h2).elim
    · simp [process_event, hkind]
  · intro h
    simp [process_event, h]

/- ------------------------------------------------------------------
Stream ingest client (`server/jetstream.py` together with the
`run_jetstream` / `on_message_handler` glue of `server/data_stream.py`).
------------------------------------------------------------------ -/

/-- Decimal digits of a natural number, most significant first, with
structural fuel (`fuel > n` suffices); mirrors Python `str(n)`. -/
def natToCharsAux : ℕ → ℕ → List Char
  | 0, _ => []
  | _ + 1, 0 => []
  | fuel + 1, n => natToCharsAux fuel (n / 10) ++ [Char.ofNat ('0'.toNat + n % 10)]

/-- Decimal rendering of a natural number as done by Python string
interpolation. -/
def natToString (n : ℕ) : String :=
  if n = 0 then "0" else String.mk (natToCharsAux (n + 1) n)

/-- Decimal rendering of an integer as done by Python string
interpolation. -/
def intToString (i : ℤ) : String :=
  if i < 0 then "-" ++ natToString i.natAbs else natToString i.toNat

/-- Join a list of query parameters with `&`, mirroring
`'&'.join(params)`. -/
def joinAmp : List String → String
  | [] => ""
  | [p] => p
  | p :: rest => p ++ "&" ++ joinAmp rest

/-- Connection-relevant state of `JetstreamClient`
(`server/jetstream.py`): the construction parameters.  `cursor` is set
once, by `run_jetstream`, from the persisted subscription state, and no
code path ever assigns it again. -/
structure JetstreamClient where
  websocket_url : String
  wanted_collections : List String
  wanted_dids : List String
  cursor : Option ℕ

/-- Combined ingest-process state: the client object plus the one-row
`SubscriptionState` cursor that `on_message_handler` persists after each
message. -/
structure IngestState where
  client : JetstreamClient
  persisted_cursor : Option ℕ

/-- `JetstreamClient._build_url`: the websocket URL with
`wantedCollections`, `wantedDids` and (when present) `cursor` query
parameters. -/
def build_url (c : JetstreamClient) : String :=
  let params := (c.wanted_collections.map (fun col => "wantedCollections=" ++ col))
    ++ (c.wanted_dids.map (fun d => "wantedDids=" ++ d))
    ++ (match c.cursor with
        | some n => ["cursor=" ++ natToString n]
        | none => [])
  if params = [] then c.websocket_url
  else c.websocket_url ++ "?" ++ joinAmp params

/-- Cursor persistence of `on_message_handler`
(`server/data_stream.py`): when the event carries `time_us`, the one-row
subscription-state cursor is overwritten; the in-memory `client.cursor`
field is never touched. -/
def on_message_update_cursor (st : IngestState) (ev : JetEvent) : IngestState :=
  match ev.time_us with
  | some t => { st with persisted_cursor := some t }
  | none => st

/-- Exponential backoff wait `wait_time = 2**attempt` slept before each
reconnection attempt in `JetstreamClient.on_close`. -/
def backoff_wait (attempt : ℕ) : ℕ := 2 ^ attempt

/-- Reconnection loop body of `JetstreamClient.on_close`: one
`self.start()` try per attempt index, in order; the first success returns
(reconnected at the URL built from the unchanged client object), and
falling off the end raises
`ConnectionError("Failed to reconnect after 5 attempts")`.
`connect_ok i` records whether the i-th `self.start()` call succeeds. -/
def reconnect_tries (c : JetstreamClient) (connect_ok : ℕ → Bool) :
    List ℕ → Except String String
  | [] => Except.error "Failed to reconnect after 5 attempts"
  | i :: rest =>
      if connect_ok i then Except.ok (build_url c)
      else reconnect_tries c connect_ok rest

/-- `JetstreamClient.on_close`: iterate the reconnection attempt over
`range(5)`. -/
def on_close (c : JetstreamClient) (connect_ok : ℕ → Bool) :
    Except String String :=
  reconnect_tries c connect_ok (List.range 5)

/-- C8 (counterexample to the claim as stated): construct the client with
resume cursor 5 (as `run_jetstream` does from the persisted subscription
state), process one message at stream position `time_us = 10` — which
persists cursor 10 — then lose the connection and reconnect on the first
attempt.  The reconnection URL still carries `cursor=5`, the construction
cursor, not the last persisted cursor 10: the stream is re-read from
position 5 and the events in (5,10] are reprocessed, refuting "resumes
the stream from the last persisted cursor, reprocessing nothing before
it". -/
theorem c8_reconnect_cursor_counterexample :
    ((on_message_update_cursor
        ⟨⟨"wss://h/subscribe", [], [], some 5⟩, some 5⟩
        { time_us := some 10 }).persisted_cursor = some 10)
    ∧ on_close (on_message_update_cursor
        ⟨⟨"wss://h/subscribe", [], [], some 5⟩, some 5⟩
        { time_us := some 10 }).client (fun _ => true)
      = Except.ok "wss://h/subscribe?cursor=5"
    ∧ build_url ⟨"wss://h/subscribe", [], [], some 10⟩
      = "wss://h/subscribe?cursor=10"
    ∧ ("wss://h/subscribe?cursor=5" : String) ≠ "wss://h/subscribe?cursor=10" :=
  ⟨rfl, rfl, rfl, by decide⟩

/-- C8 (amended): on transport loss the client waits `2**attempt` seconds
before each of at most 5 reconnection attempts; up to 4 consecutive
failures followed by a success reconnect — but at the URL built from the
construction-time cursor, which message processing never updates (only
the separately persisted subscription-state row advances) — while 5
consecutive failures raise the fatal
`ConnectionError("Failed to reconnect after 5 attempts")`. -/
theorem c8_reconnect_amended (c : JetstreamClient) (connect_ok : ℕ → Bool) :
    (∀ attempt, backoff_wait attempt = 2 ^ attempt)
    ∧ ((∀ i, i < 4 → connect_ok i = false) → connect_ok 4 = true →
        on_close c connect_ok = Except.ok (build_url c))
    ∧ ((∀ i, i < 5 → connect_ok i = false) →
        on_close c connect_ok = Except.error "Failed to reconnect after 5 attempts")
    ∧ (∀ (st : IngestState) (ev : JetEvent),
        (on_message_update_cursor st ev).client = st.client) := by
  have hrange : List.range 5 = [0, 1, 2, 3, 4] := rfl
  refine ⟨fun _ => rfl, ?_, ?_, ?_⟩
  · intro h h4
    simp [on_close, hrange, reconnect_tries, h 0 (by norm_num), h 1 (by norm_num),
      h 2 (by norm_num), h 3 (by norm_num), h4]
  · intro h
    simp [on_close, hrange, reconnect_tries, h 0 (by norm_num), h 1 (by norm_num),
      h 2 (by norm_num), h 3 (by norm_num), h 4 (by norm_num)]
  · intro st ev
    cases h : ev.time_us <;> simp [on_message_update_cursor, h]

/-- Witness for C8 (amended) at concrete attempt outcomes: a client whose
first four reconnection attempts fail and whose fifth succeeds
reconnects, and a client whose five attempts all fail raises the fatal
error. -/
theorem c8_reconnect_amended_witness :
    ((∀ i, i < 4 → (fun j => decide (j = 4)) i = false)
      ∧ (fun j => decide (j = 4)) 4 = true
      ∧ on_close ⟨"wss://h/subscribe", [], [], some 5⟩ (fun j => decide (j = 4))
          = Except.ok (build_url ⟨"wss://h/subscribe", [], [], some 5⟩))
    ∧ ((∀ i, i < 5 → (fun _ => false) i = false)
      ∧ on_close ⟨"wss://h/subscribe", [], [], some 5⟩ (fun _ => false)
          = Except.error "Failed to reconnect after 5 attempts") := by
  have hfail4 : ∀ i, i < 4 → (fun j => decide (j = 4)) i = false := by
    intro i hi
    simp only [decide_eq_false_iff_not]
    omega
  have hfail5 : ∀ i, i < 5 → (fun _ : ℕ => false) i = false := fun _ _ => rfl
  exact ⟨⟨hfail4, by decide,
      (c8_reconnect_amended ⟨"wss://h/subscribe", [], [], some 5⟩
        (fun j => decide (j = 4))).2.1 hfail4 (by decide)⟩,
    ⟨hfail5,
      (c8_reconnect_amended ⟨"wss://h/subscribe", [], [], some 5⟩
        (fun _ => false)).2.2.1 hfail5⟩⟩

/- ------------------------------------------------------------------
Scoring engine and feed paginator
(`server/algos/daily_seo_feed.py`, class `PostRanker`).
------------------------------------------------------------------ -/

/-- `PostRanker.calculate_velocity`.  Interaction timestamps are the
code's ISO strings after `datetime.fromisoformat`: a parsed instant in
epoch seconds, or `none` for a string whose parse raises `ValueError`
and is skipped by the `except` branch.  Ages are in hours. -/
def calculate_velocity (timestamps : List (Option ℚ)) (now : ℚ)
    (window_hours : ℚ) : ℚ :=
  let counts := timestamps.foldl
    (fun (acc : ℚ × ℚ) ts =>
      match ts with
      | none => acc
      | some t =>
        let age_hours := (now - t) / 3600
        if age_hours ≤ window_hours then
          (acc.1 + 1, if age_hours ≤ window_hours / 2 then acc.2 + 1 else acc.2)
        else acc)
    (0, 0)
  counts.1 + counts.2 * (1/2)

/-- Persisted `Post` row (`server/database.py`): identifiers, author,
text, counters, quorum list, interaction timestamps (parsed as in
`calculate_velocity`), and the indexed-at instant in epoch seconds. -/
structure Post where
  id : ℕ
  uri : String
  cid : String
  author_handle : String
  text : String
  likes_count : ℕ
  reposts_count : ℕ
  replies_count : ℕ
  engaged_authors : List String
  interaction_timestamps : List (Option ℚ)
  indexed_at : ℚ

/-- One row of the dataframe built by `PostRanker.build_base_df`. -/
structure BaseRow where
  post_id : ℕ
  uri : String
  cid : String
  author_handle : String
  text : String
  engagement_score : ℚ
  engaged_authors_count : ℕ
  velocity : ℚ
  indexed_at : ℚ

/-- `PostRanker.build_base_df`: skip (`continue`) every post engaged by
fewer than `MIN_AUTHOR_ENGAGEMENT` distinct authors, and compute the
weighted raw engagement and the velocity for the remaining posts. -/
def build_base_df (cfg : RankConfig) (posts : List Post) (now : ℚ) :
    List BaseRow :=
  posts.filterMap (fun p =>
    if p.engaged_authors.length < cfg.MIN_AUTHOR_ENGAGEMENT then none
    else some
      { post_id := p.id, uri := p.uri, cid := p.cid,
        author_handle := p.author_handle, text := p.text,
        engagement_score := (p.likes_count : ℚ) * cfg.WEIGHT_LIKES
          + (p.reposts_count : ℚ) * cfg.WEIGHT_REPOSTS
          + (p.replies_count : ℚ) * cfg.WEIGHT_COMMENTS,
        engaged_authors_count := p.engaged_authors.length,
        velocity := calculate_velocity p.interaction_timestamps now
          cfg.RECENT_INTERACTION_WINDOW,
        indexed_at := p.indexed_at })

/-- Maximum of a numeric dataframe column (`Series.max`); only ever used
on the non-empty result sets the code guards with `len(df) == 0`. -/
def col_max : List ℚ → ℚ
  | [] => 0
  | x :: rest => rest.foldl max x

/-- Quorum score
`engaged_authors_count / total_authors if total_authors > 0 else 0.0`
from `PostRanker.normalize_scores`. -/
def quorum_score_of (engaged_count total_authors : ℕ) : ℚ :=
  if 0 < total_authors then (engaged_count : ℚ) / (total_authors : ℚ) else 0

/-- Row of the normalized dataframe after `PostRanker.normalize_scores`
(all the base columns are kept). -/
structure NormRow extends BaseRow where
  engagement_norm : ℚ
  velocity_norm : ℚ
  quorum_score : ℚ
  quorum_norm : ℚ
  age_hours : ℚ
  time_decay : ℚ

/-- `PostRanker.normalize_scores`.  `total_authors` is
`len(author_manager.author_dids)`, the size of the trusted-author
registry.  The `time_decay` column is
`1/(1 + exp((age_hours − DECAY_MIDPOINT)/DECAY_RATE))` evaluated in
floating point; since `exp` has no exact rational value the evaluated
column is supplied as the function `decay_col` of the age, and the
real-number curve itself is `time_decay` below with its properties
proved over ℝ.  Every concrete evaluation in this file sets the ages
exactly at the midpoint, where the float column and the real curve are
both exactly 1/2 (`exp(0.0) == 1.0` holds exactly in IEEE arithmetic). -/
def normalize_scores (cfg : RankConfig) (df : List BaseRow)
    (total_authors : ℕ) (now : ℚ) (decay_col : ℚ → ℚ) : List NormRow :=
  let emax := col_max (df.map (·.engagement_score))
  let vmax := col_max (df.map (·.velocity))
  let qmax := col_max
    (df.map (fun r => quorum_score_of r.engaged_authors_count total_authors))
  df.map (fun r =>
    { toBaseRow := r
      engagement_norm := if 0 < emax then r.engagement_score / emax else 0
      velocity_norm := if 0 < vmax then r.velocity / vmax else 0
      quorum_score := quorum_score_of r.engaged_authors_count total_authors
      quorum_norm :=
        if 0 < qmax
        then quorum_score_of r.engaged_authors_count total_authors / qmax
        else 0
      age_hours := (now - r.indexed_at) / 3600
      time_decay := decay_col ((now - r.indexed_at) / 3600) })

/-- Row of the final scored dataframe. -/
structure ScoredRow extends NormRow where
  final_score : ℚ

/-- Descending `['final_score', 'indexed_at']` sort-key comparison of
`sort_values(..., ascending=[False, False])`: row `r` sorts no later
than row `s`. -/
def row_before (r s : ScoredRow) : Bool :=
  decide (s.final_score < r.final_score
    ∨ (r.final_score = s.final_score ∧ s.indexed_at ≤ r.indexed_at))

/-- Insertion step of the sort. -/
def insert_row (r : ScoredRow) : List ScoredRow → List ScoredRow
  | [] => [r]
  | s :: rest => if row_before r s then r :: s :: rest else s :: insert_row r rest

/-- Sort by the descending (final_score, indexed_at) key.  This agrees
with the code's `pandas.sort_values` on every result set whose sort keys
are pairwise distinct; ordering of full key ties is
implementation-defined in the code (an unstable quicksort). -/
def sort_rows (df : List ScoredRow) : List ScoredRow :=
  df.foldr insert_row []

/-- `PostRanker.calculate_final_scores`: `np.mean` of the three weighted
normalized components (their arithmetic mean) times the decay column,
then the `MIN_ENGAGEMENT_SCORE` filter, then the descending sort. -/
def calculate_final_scores (cfg : RankConfig) (df : List NormRow) :
    List ScoredRow :=
  let scored := df.map (fun r =>
    { toNormRow := r
      final_score := (r.engagement_norm * cfg.BASE_ENGAGEMENT
        + r.quorum_norm * cfg.QUORUM
        + r.velocity_norm * cfg.VELOCITY) / 3 * r.time_decay })
  sort_rows (scored.filter (fun r => cfg.MIN_ENGAGEMENT_SCORE ≤ r.final_score))

/-- Lexicographic code-point comparison of character lists: the pandas
string comparison used by `df['cid'] < cid`. -/
def lexLtChars : List Char → List Char → Bool
  | [], [] => false
  | [], _ :: _ => true
  | _ :: _, [] => false
  | a :: as, b :: bs =>
      if a < b then true else if b < a then false else lexLtChars as bs

/-- String form of the pandas `<` comparison. -/
def str_lt (a b : String) : Bool := lexLtChars a.data b.data

/-- Split a character list at each (leftmost-first, non-overlapping)
occurrence of `"::"`: Python `cursor.split("::")`. -/
def splitDoubleColon : List Char → List (List Char)
  | [] => [[]]
  | ':' :: ':' :: rest => [] :: splitDoubleColon rest
  | ch :: rest =>
      match splitDoubleColon rest with
      | [] => [[ch]]
      | g :: gs => (ch :: g) :: gs

/-- Numeric value of a decimal digit character. -/
def digit_val (c : Char) : Option ℕ :=
  if '0' ≤ c ∧ c ≤ '9' then some (c.toNat - '0'.toNat) else none

/-- Python `int(s)` over a digit run: `none` (a `ValueError`) when the
run is empty or any character is not a digit. -/
def nat_of_chars (cs : List Char) : Option ℕ :=
  if cs = [] then none
  else cs.foldl (fun acc c =>
    match acc, digit_val c with
    | some n, some d => some (10 * n + d)
    | _, _ => none) (some 0)

/-- Python `int(s)` with an optional sign (leading whitespace and
underscore grouping, which no produced cursor contains, are not
modelled). -/
def int_of_chars : List Char → Option ℤ
  | '-' :: rest => (nat_of_chars rest).map (fun n => -(n : ℤ))
  | '+' :: rest => (nat_of_chars rest).map (fun n => (n : ℤ))
  | cs => (nat_of_chars cs).map (fun n => (n : ℤ))

/-- Cursor decoding of `PostRanker.handle_protocol_cursor`:
`indexed_at_ts, cid = cursor.split("::")` (a `ValueError` unless exactly
two parts), `int(indexed_at_ts)`, then
`datetime.fromtimestamp(int(ts) / 1000)` — the decoded instant in epoch
seconds together with the cid part; `none` is the caught
`(ValueError, TypeError)` path. -/
def parse_cursor (cursor : String) : Option (ℚ × String) :=
  match splitDoubleColon cursor.data with
  | [ts_chars, cid_chars] =>
      match int_of_chars ts_chars with
      | some n => some ((n : ℚ) / 1000, String.mk cid_chars)
      | none => none
  | _ => none

/-- Python `int()` truncation toward zero of a rational. -/
def int_trunc (q : ℚ) : ℤ := if q < 0 then -⌊-q⌋ else ⌊q⌋

/-- `PostRanker.get_protocol_cursor`: the `CURSOR_EOF` sentinel when the
page is empty or the whole (cursor-filtered) result set fits within the
limit, else `f"{timestamp_ms}::{cid}"` of the page's last row, with
`timestamp_ms = int(indexed_at.timestamp() * 1000)`. -/
def get_protocol_cursor (df page : List ScoredRow) (limit : ℕ) : String :=
  if page.length = 0 ∨ df.length ≤ limit then CURSOR_EOF
  else
    match page.getLast? with
    | none => CURSOR_EOF
    | some last =>
        intToString (int_trunc (last.indexed_at * 1000)) ++ "::" ++ last.cid

/-- `PostRanker.handle_protocol_cursor`: a missing, empty or
end-of-results cursor leaves the result set unchanged; a decodable
cursor keeps exactly the rows strictly after the encoded
(indexed_at, cid) position in descending chronological order,
`((indexed_at == ts) & (cid < cursor_cid)) | (indexed_at < ts)`; an
undecodable cursor is caught (`ValueError`/`TypeError`), logged, and the
result set is returned unfiltered. -/
def handle_protocol_cursor (df : List ScoredRow) (cursor : Option String) :
    List ScoredRow :=
  match cursor with
  | none => df
  | some c =>
    if c = "" ∨ c = CURSOR_EOF then df
    else
      match parse_cursor c with
      | none => df
      | some (ts, cid) =>
          df.filter (fun r =>
            (decide (r.indexed_at = ts) && str_lt r.cid cid)
              || decide (r.indexed_at < ts))

/-- `PostRanker.get_scored_posts`: select the posts whose `indexed_at`
is within the `POST_LIFETIME_HOURS` window, build the base dataframe,
and (unless it is empty) normalize and score it. -/
def get_scored_posts (cfg : RankConfig) (posts : List Post)
    (total_authors : ℕ) (now : ℚ) (decay_col : ℚ → ℚ) : List ScoredRow :=
  let cutoff := now - cfg.POST_LIFETIME_HOURS * 3600
  let recent := posts.filter (fun p => decide (cutoff ≤ p.indexed_at))
  let df := build_base_df cfg recent now
  if df.length = 0 then []
  else calculate_final_scores cfg
    (normalize_scores cfg df total_authors now decay_col)

/-- One feed entry produced by `PostRanker.get_posts`. -/
structure FeedRow where
  uri : String
  author_handle : String
  text : String
  engagement_score : ℚ
  indexed_at : ℚ

/-- `PostRanker.get_posts`: clamp the limit into [1, 100], score the
persisted posts, apply the cursor filter, take the page, and return the
page rows together with the next cursor. -/
def get_posts (cfg : RankConfig) (posts : List Post) (total_authors : ℕ)
    (now : ℚ) (decay_col : ℚ → ℚ) (cursor : Option String) (limit : ℤ) :
    List FeedRow × String :=
  let lim := (min (max 1 limit) 100).toNat
  let df := get_scored_posts cfg posts total_authors now decay_col
  if df.length = 0 then ([], CURSOR_EOF)
  else
    let df2 := handle_protocol_cursor df cursor
    let page := df2.take lim
    if page.length = 0 then ([], CURSOR_EOF)
    else
      (page.map (fun r =>
        { uri := r.uri, author_handle := r.author_handle, text := r.text,
          engagement_score := r.final_score, indexed_at := r.indexed_at }),
        get_protocol_cursor df2 page lim)

/-- Logistic time-decay curve
`1 / (1 + exp((age_hours − midpoint) / rate))` computed by
`PostRanker.normalize_scores`, over ℝ. -/
noncomputable def time_decay (midpoint rate age_hours : ℝ) : ℝ :=
  1 / (1 + Real.exp ((age_hours - midpoint) / rate))

/-- Decay column used by every concrete evaluation below: all ages are
set exactly at `DECAY_MIDPOINT`, where the code's float column is
exactly 1/2 (see `c5_time_decay`). -/
def half_decay_col : ℚ → ℚ := fun _ => 1/2

/- ------------------------------------------------------------------
Feed API surface (`server/app.py`, route `getFeedSkeleton`, and the
`handler` function of `server/algos/daily_seo_feed.py`).
------------------------------------------------------------------ -/

/-- HTTP outcome of the `getFeedSkeleton` route: a 200 body (cursor and
post-uri skeleton), a typed 400 client error, or a 500 server error. -/
inductive SkeletonResponse where
  | ok (cursor : String) (feed : List String)
  | clientError (message : String)
  | serverError
deriving DecidableEq

/-- `get_feed_skeleton` route of `server/app.py` composed with the
algorithm `handler` of `server/algos/daily_seo_feed.py` (which keeps
`{"post": post["uri"]}` of each feed row).  `known_feed` models the
`algos.get(feed)` lookup.  A `ValueError` escaping the algorithm would
map to 400 "Malformed cursor" and any other exception to a 500, but the
embedded pipeline is total — `get_posts` catches every exception — so
the success body is always produced once the feed id and limit checks
pass. -/
def get_feed_skeleton (cfg : RankConfig) (posts : List Post)
    (total_authors : ℕ) (now : ℚ) (decay_col : ℚ → ℚ)
    (known_feed : Bool) (cursor : Option String) (limit : ℤ) :
    SkeletonResponse :=
  if known_feed = false then SkeletonResponse.clientError "Unsupported algorithm"
  else if limit < 1 ∨ 100 < limit then
    SkeletonResponse.clientError "Invalid limit (must be between 1 and 100)"
  else
    let result := get_posts cfg posts total_authors now decay_col cursor limit
    SkeletonResponse.ok result.2 (result.1.map FeedRow.uri)

/-- C5: the time-decay factor is the logistic curve
`1/(1 + exp((age_hours − midpoint)/rate))`; it equals exactly 1/2 when
the age equals the midpoint, and for positive rate it is monotonically
non-increasing in the age (hence approaches 1 for young and 0 for old
items). -/
theorem c5_time_decay :
    (∀ midpoint rate : ℝ, time_decay midpoint rate midpoint = 1/2)
    ∧ (∀ midpoint rate a b : ℝ, 0 < rate → a ≤ b →
        time_decay midpoint rate b ≤ time_decay midpoint rate a) := by
  constructor
  · intro m r
    simp [time_decay, sub_self, zero_div, Real.exp_zero]
    norm_num
  · intro m r a b hr hab
    unfold time_decay
    have h1 : (0:ℝ) < 1 + Real.exp ((a - m) / r) := by positivity
    have hexp : Real.exp ((a - m) / r) ≤ Real.exp ((b - m) / r) :=
      Real.exp_le_exp.mpr ((div_le_div_right hr).mpr (by linarith))
    exact one_div_le_one_div_of_le h1 (by linarith)

/-- Witness for C5 at the configured default parameters: midpoint 12h,
rate 4; the decay at age 12 is exactly 1/2 and the decay at age 24 does
not exceed it. -/
theorem c5_time_decay_witness :
    time_decay 12 4 12 = 1/2
      ∧ (0:ℝ) < 4 ∧ (12:ℝ) ≤ 24
      ∧ time_decay 12 4 24 ≤ time_decay 12 4 12 :=
  ⟨c5_time_decay.1 12 4, by norm_num, by norm_num,
    c5_time_decay.2 12 4 12 24 (by norm_num) (by norm_num)⟩

/-- Membership of one parsed interaction timestamp in the lookback
window (age in hours at most `window_hours`); unparseable timestamps
never count. -/
def in_window (now window_hours : ℚ) : Option ℚ → Bool
  | some t => decide ((now - t) / 3600 ≤ window_hours)
  | none => false

/-- Membership in the half window: the "very recent" extra-weight test,
reached only for timestamps already inside the full window. -/
def in_half_window (now window_hours : ℚ) : Option ℚ → Bool
  | some t => decide ((now - t) / 3600 ≤ window_hours)
      && decide ((now - t) / 3600 ≤ window_hours / 2)
  | none => false

lemma velocity_foldl_counts (now w : ℚ) (l : List (Option ℚ)) :
    ∀ acc : ℚ × ℚ,
      l.foldl
        (fun (acc : ℚ × ℚ) ts =>
          match ts with
          | none => acc
          | some t =>
            let age_hours := (now - t) / 3600
            if age_hours ≤ w then
              (acc.1 + 1, if age_hours ≤ w / 2 then acc.2 + 1 else acc.2)
            else acc)
        acc
      = (acc.1 + (l.countP (in_window now w) : ℚ),
          acc.2 + (l.countP (in_half_window now w) : ℚ)) := by
  induction l with
  | nil => simp
  | cons ts rest ih =>
    intro acc
    cases ts with
    | none =>
      simp only [List.foldl_cons]
      rw [ih]
      simp [in_window, in_half_window, List.countP_cons]
    | some t =>
      simp only [List.foldl_cons]
      by_cases h1 : (now - t) / 3600 ≤ w
      · by_cases h2 : (now - t) / 3600 ≤ w / 2
        · simp only [h1, if_true, h2]
          rw [ih]
          simp [in_window, in_half_window, List.countP_cons, h1, h2]
          constructor <;> push_cast <;> ring
        · simp only [h1, if_true, h2, if_false]
          rw [ih]
          simp [in_window, in_half_window, List.countP_cons, h1, h2]
          push_cast
          ring
      · simp only [h1, if_false]
        rw [ih]
        have hw : in_window now w (some t) = false := by
          simp [in_window, h1]
        have hhw : in_half_window now w (some t) = false := by
          simp [in_half_window, h1]
        simp [List.countP_cons, hw, hhw]

/-- C6 (amended): the velocity score uses one single configurable
lookback window (`RECENT_INTERACTION_WINDOW`, default 4h), not three:
it is the number of parseable interactions with age at most the window,
plus an extra one half for each interaction also within half the window
— no division by window length and no multi-window combination. -/
theorem c6_velocity_amended (timestamps : List (Option ℚ))
    (now window_hours : ℚ) :
    calculate_velocity timestamps now window_hours
      = (timestamps.countP (in_window now window_hours) : ℚ)
        + (timestamps.countP (in_half_window now window_hours) : ℚ) * (1/2) := by
  unfold calculate_velocity
  rw [velocity_foldl_counts]
  simp

/-- Interaction counts over the three lookback windows named by the
claim (1h, 6h, 24h), following the spec's words: any velocity of the
claimed shape — per-window counts divided by the window lengths and
combined with fixed weights — is a function of these three counts
alone. -/
def spec_window_counts (timestamps : List (Option ℚ)) (now : ℚ) :
    ℕ × ℕ × ℕ :=
  (timestamps.countP (in_window now 1),
    timestamps.countP (in_window now 6),
    timestamps.countP (in_window now 24))

/-- C6 (counterexample to the claim as stated): a single interaction
aged 3 hours and a single interaction aged 5 hours fall in exactly the
same claimed windows (not in the 1h window, in the 6h and 24h windows),
so every velocity of the claimed three-window shape gives both the same
value; the code's `calculate_velocity` (window 4h, the default) gives 1
for the first and 0 for the second. -/
theorem c6_velocity_counterexample :
    spec_window_counts [some 32400] 43200 = spec_window_counts [some 25200] 43200
      ∧ calculate_velocity [some 32400] 43200 4
        ≠ calculate_velocity [some 25200] 43200 4 := by
  constructor
  · norm_num [spec_window_counts, in_window, List.countP_cons]
  · norm_num [calculate_velocity]

lemma mem_insert_row {x r : ScoredRow} {l : List ScoredRow} :
    x ∈ insert_row r l ↔ x = r ∨ x ∈ l := by
  induction l with
  | nil => simp [insert_row]
  | cons s rest ih =>
    unfold insert_row
    split_ifs with h
    · simp
    · simp only [List.mem_cons, ih]
      tauto

lemma mem_sort_rows {x : ScoredRow} {l : List ScoredRow} :
    x ∈ sort_rows l ↔ x ∈ l := by
  induction l with
  | nil => simp [sort_rows]
  | cons s rest ih =>
    rw [sort_rows, List.foldr_cons, mem_insert_row]
    rw [sort_rows] at ih
    simp [ih]

/-- C1 (amended): every row surviving `calculate_final_scores` has final
score `(e_norm·wBase + q_norm·wQuorum + v_norm·wVelocity) / 3 · decay` —
the arithmetic mean of the weighted set-normalized components times the
decay column — and passed the minimum-score filter.  There is no
logarithmic base term, no recency multiplier, and no flooring at 0 (rows
below `MIN_ENGAGEMENT_SCORE` are dropped, not floored); the claim's
concrete scenario yields 2/15 ≈ 0.133, not ≈ 0.374
(`c1_scenario_score_counterexample`). -/
theorem c1_final_score_amended (cfg : RankConfig) (df : List NormRow)
    (r : ScoredRow) (h : r ∈ calculate_final_scores cfg df) :
    r.final_score = (r.engagement_norm * cfg.BASE_ENGAGEMENT
        + r.quorum_norm * cfg.QUORUM + r.velocity_norm * cfg.VELOCITY) / 3
        * r.time_decay
      ∧ cfg.MIN_ENGAGEMENT_SCORE ≤ r.final_score := by
  unfold calculate_final_scores at h
  rw [mem_sort_rows, List.mem_filter] at h
  obtain ⟨hmem, hmin⟩ := h
  rw [List.mem_map] at hmem
  obtain ⟨n, _, rfl⟩ := hmem
  exact ⟨rfl, by simpa using hmin⟩

/-- Normalized row of the claim's concrete scenario: raw engagement 37
(normalized to 1 as the set maximum), 3 of 10 registry authors engaged
(quorum score 3/10, normalized to 1), velocity 0, age at the 12h decay
midpoint with decay 1/2. -/
def c1_norm_row : NormRow :=
  { post_id := 1, uri := "at://p/a", cid := "a", author_handle := "h",
    text := "", engagement_score := 37, engaged_authors_count := 3,
    velocity := 0, indexed_at := 0, engagement_norm := 1,
    velocity_norm := 0, quorum_score := 3/10, quorum_norm := 1,
    age_hours := 12, time_decay := 1/2 }

/-- Witness for C1 (amended) at the concrete scenario row: the scored
row with final score 2/15 is produced, its score is the mean of the
weighted components times the decay, and it passes the minimum-score
filter. -/
theorem c1_final_score_amended_witness :
    (⟨c1_norm_row, 2/15⟩ : ScoredRow)
        ∈ calculate_final_scores defaultConfig [c1_norm_row]
      ∧ ((⟨c1_norm_row, 2/15⟩ : ScoredRow).final_score
          = ((⟨c1_norm_row, 2/15⟩ : ScoredRow).engagement_norm
                * defaultConfig.BASE_ENGAGEMENT
              + (⟨c1_norm_row, 2/15⟩ : ScoredRow).quorum_norm
                * defaultConfig.QUORUM
              + (⟨c1_norm_row, 2/15⟩ : ScoredRow).velocity_norm
                * defaultConfig.VELOCITY) / 3
            * (⟨c1_norm_row, 2/15⟩ : ScoredRow).time_decay
        ∧ defaultConfig.MIN_ENGAGEMENT_SCORE
          ≤ (⟨c1_norm_row, 2/15⟩ : ScoredRow).final_score) := by
  have hmem : (⟨c1_norm_row, 2/15⟩ : ScoredRow)
      ∈ calculate_final_scores defaultConfig [c1_norm_row] := by
    norm_num [calculate_final_scores, sort_rows, insert_row, c1_norm_row,
      defaultConfig, ScoredRow.mk.injEq]
  exact ⟨hmem, c1_final_score_amended defaultConfig [c1_norm_row] _ hmem⟩

/-- C1 (counterexample to the claim as stated): the claim's own concrete
scenario — likes 10, reposts 5, replies 2 under weights 2/3/1 (magnitude
37), 3 of 10 registry authors engaged, no interaction timestamps, age
exactly at the 12h decay midpoint (decay exactly 1/2) — run through the
scoring pipeline as a singleton persisted set yields final score 2/15 ≈
0.133, which differs from the claimed ≈ 0.374 by more than 0.2: the code
averages the set-normalized components (1, 1 and 0 here, each divided by
3) instead of computing the claimed `log10`-based weighted sum with a
recency multiplier. -/
theorem c1_scenario_score_counterexample :
    ((get_scored_posts defaultConfig
        [{ id := 1, uri := "at://p/a", cid := "a", author_handle := "h",
           text := "", likes_count := 10, reposts_count := 5,
           replies_count := 2, engaged_authors := ["d1", "d2", "d3"],
           interaction_timestamps := [], indexed_at := 0 }]
        10 43200 half_decay_col).map (fun r => r.final_score) = [2/15])
    ∧ (374/1000 : ℚ) - 2/15 > 1/5 := by
  constructor
  · norm_num [get_scored_posts, build_base_df, normalize_scores,
      calculate_final_scores, col_max, quorum_score_of, calculate_velocity,
      sort_rows, insert_row, half_decay_col, defaultConfig,
      List.filterMap_cons, List.filter_cons]
  · norm_num

lemma handle_protocol_cursor_subset (df : List ScoredRow)
    (cursor : Option String) :
    ∀ r ∈ handle_protocol_cursor df cursor, r ∈ df := by
  intro r hr
  cases cursor with
  | none => simpa [handle_protocol_cursor] using hr
  | some c =>
    simp only [handle_protocol_cursor] at hr
    split_ifs at hr with h
    · exact hr
    · cases hp : parse_cursor c with
      | none => rw [hp] at hr; exact hr
      | some pc =>
        obtain ⟨ts, cid⟩ := pc
        rw [hp] at hr
        exact List.mem_of_mem_filter hr

lemma mem_get_scored_posts {cfg : RankConfig} {posts : List Post}
    {total_authors : ℕ} {now : ℚ} {decay_col : ℚ → ℚ} {r : ScoredRow}
    (h : r ∈ get_scored_posts cfg posts total_authors now decay_col) :
    ∃ p, p ∈ posts ∧ r.uri = p.uri
      ∧ r.engaged_authors_count = p.engaged_authors.length
      ∧ cfg.MIN_AUTHOR_ENGAGEMENT ≤ p.engaged_authors.length := by
  simp only [get_scored_posts] at h
  split_ifs at h with h0
  · simp at h
  · unfold calculate_final_scores at h
    rw [mem_sort_rows, List.mem_filter] at h
    obtain ⟨hm, -⟩ := h
    rw [List.mem_map] at hm
    obtain ⟨n, hn, rfl⟩ := hm
    unfold normalize_scores at hn
    rw [List.mem_map] at hn
    obtain ⟨b, hb, rfl⟩ := hn
    unfold build_base_df at hb
    rw [List.mem_filterMap] at hb
    obtain ⟨p, hp, hpb⟩ := hb
    rcases Nat.lt_or_ge p.engaged_authors.length cfg.MIN_AUTHOR_ENGAGEMENT
      with hlen | hlen
    · rw [if_pos hlen] at hpb
      simp at hpb
    · rw [if_neg (Nat.not_lt.mpr hlen)] at hpb
      rw [Option.some.injEq] at hpb
      subst hpb
      exact ⟨p, List.mem_of_mem_filter hp, rfl, rfl, hlen⟩

lemma mem_get_posts_feed {cfg : RankConfig} {posts : List Post}
    {total_authors : ℕ} {now : ℚ} {decay_col : ℚ → ℚ}
    {cursor : Option String} {limit : ℤ} {fr : FeedRow}
    (h : fr ∈ (get_posts cfg posts total_authors now decay_col cursor limit).1) :
    ∃ p, p ∈ posts ∧ fr.uri = p.uri
      ∧ cfg.MIN_AUTHOR_ENGAGEMENT ≤ p.engaged_authors.length := by
  simp only [get_posts] at h
  split_ifs at h with h0 h1
  · simp at h
  · simp at h
  · rw [List.mem_map] at h
    obtain ⟨r, hr, rfl⟩ := h
    have hdf2 := List.take_subset _ _ hr
    have hdf := handle_protocol_cursor_subset _ _ _ hdf2
    obtain ⟨p, hp, huri, -, hlen⟩ := mem_get_scored_posts hdf
    exact ⟨p, hp, huri, hlen⟩

/-- C4: items engaged by fewer distinct trusted authors than
`MIN_AUTHOR_ENGAGEMENT` never rank — every emitted feed row comes from a
persisted post at or above the threshold, for any counters, velocity,
age, cursor and limit (the code enforces this by excluding such posts
from the dataframe before scoring, so they can never appear regardless
of their other factors); the quorum score is
`engaged_count / total_authors` (0 when the registry is empty) and is
non-decreasing as distinct engaged authors accumulate. -/
theorem c4_min_author_gate :
    (∀ (cfg : RankConfig) (posts : List Post) (total_authors : ℕ) (now : ℚ)
        (decay_col : ℚ → ℚ) (cursor : Option String) (limit : ℤ)
        (fr : FeedRow),
        fr ∈ (get_posts cfg posts total_authors now decay_col cursor limit).1 →
        ∃ p, p ∈ posts ∧ fr.uri = p.uri
          ∧ cfg.MIN_AUTHOR_ENGAGEMENT ≤ p.engaged_authors.length)
    ∧ (∀ c₁ c₂ total : ℕ, c₁ ≤ c₂ →
        quorum_score_of c₁ total ≤ quorum_score_of c₂ total)
    ∧ (∀ c : ℕ, quorum_score_of c 0 = 0)
    ∧ (∀ (cfg : RankConfig) (df : List BaseRow) (total_authors : ℕ) (now : ℚ)
        (decay_col : ℚ → ℚ) (n : NormRow),
        n ∈ normalize_scores cfg df total_authors now decay_col →
        n.quorum_score = quorum_score_of n.engaged_authors_count total_authors) := by
  refine ⟨?_, ?_, ?_, ?_⟩
  · intro cfg posts total_authors now decay_col cursor limit fr h
    exact mem_get_posts_feed h
  · intro c₁ c₂ total hc
    unfold quorum_score_of
    split_ifs with h
    · have ht : (0:ℚ) < (total : ℚ) := by exact_mod_cast h
      have hcc : (c₁:ℚ) ≤ (c₂:ℚ) := by exact_mod_cast hc
      exact (div_le_div_right ht).mpr hcc
    · exact le_refl 0
  · intro c
    simp [quorum_score_of]
  · intro cfg df total_authors now decay_col n hn
    unfold normalize_scores at hn
    rw [List.mem_map] at hn
    obtain ⟨b, hb, rfl⟩ := hn
    rfl

/-- Persisted post of the concrete scenario, reused by the C4 witness:
3 engaged authors (at the default threshold 2), counters 10/5/2, age at
the decay midpoint. -/
def c4_post : Post :=
  { id := 1, uri := "at://p/a", cid := "a", author_handle := "h",
    text := "", likes_count := 10, reposts_count := 5, replies_count := 2,
    engaged_authors := ["d1", "d2", "d3"],
    interaction_timestamps := [], indexed_at := 0 }

/-- Feed row the pipeline emits for `c4_post`. -/
def c4_row : FeedRow :=
  { uri := "at://p/a", author_handle := "h", text := "",
    engagement_score := 2/15, indexed_at := 0 }

/-- Witness for C4 at the concrete scenario post (3 engaged authors,
threshold 2): the emitted feed row traces back to a persisted post at or
above the threshold; quorum monotonicity and the empty-registry case are
instantiated at concrete counts. -/
theorem c4_min_author_gate_witness :
    (c4_row ∈ (get_posts defaultConfig [c4_post] 10 43200 half_decay_col
          none 20).1
      ∧ ∃ p, p ∈ [c4_post] ∧ c4_row.uri = p.uri
          ∧ defaultConfig.MIN_AUTHOR_ENGAGEMENT ≤ p.engaged_authors.length)
    ∧ ((1:ℕ) ≤ 2 ∧ quorum_score_of 1 10 ≤ quorum_score_of 2 10)
    ∧ quorum_score_of 3 0 = 0 := by
  have hmem : c4_row ∈ (get_posts defaultConfig [c4_post] 10 43200
      half_decay_col none 20).1 := by
    norm_num [get_posts, get_scored_posts, build_base_df, normalize_scores,
      calculate_final_scores, col_max, quorum_score_of, calculate_velocity,
      sort_rows, insert_row, half_decay_col, defaultConfig,
      handle_protocol_cursor, List.filterMap_cons, List.filter_cons,
      FeedRow.mk.injEq, c4_post, c4_row]
    rw [List.take_of_length_le (by norm_num)]
    norm_num
  exact ⟨⟨hmem, c4_min_author_gate.1 defaultConfig _ 10 43200 half_decay_col
        none 20 _ hmem⟩,
    ⟨by norm_num, c4_min_author_gate.2.1 1 2 10 (by norm_num)⟩,
    c4_min_author_gate.2.2.1 3⟩

/-- Propositional form of the descending (final_score, indexed_at) sort
key: row `r` sorts no later than row `s`. -/
def RowLe (r s : ScoredRow) : Prop :=
  s.final_score < r.final_score
    ∨ (r.final_score = s.final_score ∧ s.indexed_at ≤ r.indexed_at)

lemma row_before_iff {r s : ScoredRow} : row_before r s = true ↔ RowLe r s := by
  simp [row_before, RowLe]

lemma rowLe_total (r s : ScoredRow) : RowLe r s ∨ RowLe s r := by
  unfold RowLe
  rcases lt_trichotomy r.final_score s.final_score with h | h | h
  · exact Or.inr (Or.inl h)
  · rcases le_total s.indexed_at r.indexed_at with h2 | h2
    · exact Or.inl (Or.inr ⟨h, h2⟩)
    · exact Or.inr (Or.inr ⟨h.symm, h2⟩)
  · exact Or.inl (Or.inl h)

lemma rowLe_trans {a b c : ScoredRow} (h1 : RowLe a b) (h2 : RowLe b c) :
    RowLe a c := by
  unfold RowLe at h1 h2 ⊢
  rcases h1 with h1 | ⟨h1, h1i⟩ <;> rcases h2 with h2 | ⟨h2, h2i⟩
  · exact Or.inl (h2.trans h1)
  · exact Or.inl (h2 ▸ h1)
  · exact Or.inl (lt_of_lt_of_eq h2 h1.symm)
  · exact Or.inr ⟨h1.trans h2, h2i.trans h1i⟩

lemma sorted_insert_row {r : ScoredRow} {l : List ScoredRow}
    (hl : l.Pairwise RowLe) : (insert_row r l).Pairwise RowLe := by
  induction l with
  | nil => simp [insert_row]
  | cons s rest ih =>
    rw [List.pairwise_cons] at hl
    obtain ⟨hs, hrest⟩ := hl
    unfold insert_row
    split_ifs with h
    · rw [row_before_iff] at h
      refine List.Pairwise.cons ?_ (List.Pairwise.cons hs hrest)
      intro x hx
      rcases List.mem_cons.mp hx with rfl | hx
      · exact h
      · exact rowLe_trans h (hs x hx)
    · refine List.Pairwise.cons ?_ (ih hrest)
      intro x hx
      rw [mem_insert_row] at hx
      rcases hx with rfl | hx
      · rcases rowLe_total x s with hrs | hsr
        · exact absurd (row_before_iff.mpr hrs) (by simpa using h)
        · exact hsr
      · exact hs x hx

lemma sorted_sort_rows (l : List ScoredRow) : (sort_rows l).Pairwise RowLe := by
  induction l with
  | nil => simp [sort_rows]
  | cons s rest ih =>
    rw [sort_rows, List.foldr_cons]
    exact sorted_insert_row (by simpa [sort_rows] using ih)

lemma parse_cursor_eval : parse_cursor "0::c" = some (0, "c") := by
  have h1 : splitDoubleColon "0::c".data = [['0'], ['c']] := by decide
  have h2 : int_of_chars ['0'] = some 0 := by decide
  unfold parse_cursor
  rw [h1]
  simp only [h2, Option.some.injEq, Prod.mk.injEq]
  constructor
  · norm_num
  · decide

/-- C2 (amended): each call with a decodable cursor returns only items
whose (indexed_at, cid) pair lies strictly after the encoded position in
descending chronological order — the cursor encodes the last item's
(indexed_at, cid), not its (final_score, indexed_at) sort key — and each
result set (hence each page, a prefix of it) is internally in descending
(final_score, indexed_at) order.  Because the two orders can disagree,
the concatenation of all pages can repeat and omit qualifying items
(`c2_pagination_counterexample`); the every-item-exactly-once property
of the claim does not hold. -/
theorem c2_pagination_amended :
    (∀ (df : List ScoredRow) (c : String) (ts : ℚ) (cid : String)
        (r : ScoredRow),
        parse_cursor c = some (ts, cid) → c ≠ "" → c ≠ CURSOR_EOF →
        r ∈ handle_protocol_cursor df (some c) →
        ((r.indexed_at = ts ∧ str_lt r.cid cid = true) ∨ r.indexed_at < ts))
    ∧ (∀ (cfg : RankConfig) (df : List NormRow),
        (calculate_final_scores cfg df).Pairwise RowLe) := by
  constructor
  · intro df c ts cid r hp hne hneof hr
    simp only [handle_protocol_cursor] at hr
    rw [if_neg (by push_neg; exact ⟨hne, hneof⟩), hp] at hr
    rw [List.mem_filter] at hr
    have h2 := hr.2
    simp only [Bool.or_eq_true, Bool.and_eq_true, decide_eq_true_eq] at h2
    exact h2
  · intro cfg df
    unfold calculate_final_scores
    exact sorted_sort_rows _

/-- Scored row kept by the cursor filter in the C2 witness: cid `"b"`,
indexed at the cursor's instant. -/
def c2_row : ScoredRow :=
  { post_id := 3, uri := "at://p/c", cid := "b", author_handle := "h",
    text := "", engagement_score := 2, engaged_authors_count := 3,
    velocity := 0, indexed_at := 0, engagement_norm := 2/37,
    velocity_norm := 0, quorum_score := 3/10, quorum_norm := 1,
    age_hours := 12, time_decay := 1/2, final_score := 13/185 }

/-- Witness for C2 (amended): a concrete decodable cursor `"0::c"` and a
row kept by the filter, which indeed lies strictly after the cursor
position (same instant, cid `"b" < "c"`). -/
theorem c2_pagination_amended_witness :
    (parse_cursor "0::c" = some (0, "c")
      ∧ ("0::c" : String) ≠ "" ∧ ("0::c" : String) ≠ CURSOR_EOF
      ∧ c2_row ∈ handle_protocol_cursor [c2_row] (some "0::c"))
    ∧ ((c2_row.indexed_at = 0 ∧ str_lt c2_row.cid "c" = true)
        ∨ c2_row.indexed_at < 0) := by
  have hne : ("0::c" : String) ≠ "" := by decide
  have hneof : ("0::c" : String) ≠ CURSOR_EOF := by decide
  have hmem : c2_row ∈ handle_protocol_cursor [c2_row] (some "0::c") := by
    simp only [handle_protocol_cursor]
    rw [if_neg (by push_neg; exact ⟨hne, hneof⟩), parse_cursor_eval]
    norm_num [c2_row, str_lt, lexLtChars] <;> decide
  exact ⟨⟨parse_cursor_eval, hne, hneof, hmem⟩,
    c2_pagination_amended.1 [c2_row] "0::c" 0 "c" c2_row
      parse_cursor_eval hne hneof hmem⟩

/-- Second persisted post of the C2 counterexample: lower score than
`c4_post` but a later cid `"c"`. -/
def c2_post_b : Post :=
  { id := 2, uri := "at://p/b", cid := "c", author_handle := "h",
    text := "", likes_count := 5, reposts_count := 0, replies_count := 0,
    engaged_authors := ["d1", "d2", "d3"],
    interaction_timestamps := [], indexed_at := 0 }

/-- Third persisted post of the C2 counterexample: lowest score, cid
`"b"`. -/
def c2_post_c : Post :=
  { id := 3, uri := "at://p/c", cid := "b", author_handle := "h",
    text := "", likes_count := 1, reposts_count := 0, replies_count := 0,
    engaged_authors := ["d1", "d2", "d3"],
    interaction_timestamps := [], indexed_at := 0 }

/-- Fully scored row of `c4_post` in the C2 counterexample set. -/
def c2_rowA : ScoredRow :=
  { post_id := 1, uri := "at://p/a", cid := "a", author_handle := "h",
    text := "", engagement_score := 37, engaged_authors_count := 3,
    velocity := 0, indexed_at := 0, engagement_norm := 1, velocity_norm := 0,
    quorum_score := 3/10, quorum_norm := 1, age_hours := 12,
    time_decay := 1/2, final_score := 2/15 }

/-- Fully scored row of `c2_post_b`. -/
def c2_rowB : ScoredRow :=
  { post_id := 2, uri := "at://p/b", cid := "c", author_handle := "h",
    text := "", engagement_score := 10, engaged_authors_count := 3,
    velocity := 0, indexed_at := 0, engagement_norm := 10/37,
    velocity_norm := 0, quorum_score := 3/10, quorum_norm := 1,
    age_hours := 12, time_decay := 1/2, final_score := 47/555 }

/-- Fully scored row of `c2_post_c`. -/
def c2_rowC : ScoredRow :=
  { post_id := 3, uri := "at://p/c", cid := "b", author_handle := "h",
    text := "", engagement_score := 2, engaged_authors_count := 3,
    velocity := 0, indexed_at := 0, engagement_norm := 2/37,
    velocity_norm := 0, quorum_score := 3/10, quorum_norm := 1,
    age_hours := 12, time_decay := 1/2, final_score := 13/185 }

lemma c2_scored_eval :
    get_scored_posts defaultConfig [c4_post, c2_post_b, c2_post_c] 10 43200
      half_decay_col = [c2_rowA, c2_rowB, c2_rowC] := by
  norm_num [get_scored_posts, build_base_df, normalize_scores,
    calculate_final_scores, col_max, quorum_score_of, calculate_velocity,
    sort_rows, insert_row, row_before, half_decay_col, defaultConfig,
    List.filterMap_cons, List.filter_cons, c4_post, c2_post_b, c2_post_c,
    c2_rowA, c2_rowB, c2_rowC, ScoredRow.mk.injEq, NormRow.mk.injEq,
    BaseRow.mk.injEq]

lemma c2_handle_eval :
    handle_protocol_cursor [c2_rowA, c2_rowB, c2_rowC] (some "0::c")
      = [c2_rowA, c2_rowC] := by
  simp only [handle_protocol_cursor]
  rw [if_neg (by decide), parse_cursor_eval]
  have ha : lexLtChars "a".data ['c'] = true := by decide
  have hb : lexLtChars "b".data ['c'] = true := by decide
  have hc : lexLtChars "c".data ['c'] = false := by decide
  have ha' : lexLtChars ['a'] ['c'] = true := by decide
  have hb' : lexLtChars ['b'] ['c'] = true := by decide
  have hc' : lexLtChars ['c'] ['c'] = false := by decide
  norm_num [List.filter_cons, c2_rowA, c2_rowB, c2_rowC, str_lt,
    ha, hb, hc, ha', hb', hc']

lemma c2_next_cursor_eval :
    get_protocol_cursor [c2_rowA, c2_rowB, c2_rowC] [c2_rowA, c2_rowB] 2
      = "0::c" := by
  simp only [get_protocol_cursor]
  rw [if_neg (by norm_num)]
  simp [c2_rowB, CURSOR_EOF]
  decide

set_option maxHeartbeats 4000000 in
/-- C2 (counterexample to the claim as stated): a frozen set of three
qualifying posts, all indexed at the same instant (age = the decay
midpoint), with pairwise distinct final scores (2/15, 47/555, 13/185)
and cids "a", "c", "b".  Page 1 (limit 2) returns the two best-scored
items and a cursor encoding the last one's (indexed_at, cid) = (0, "c").
The second call filters by chronological position, so the best item
(cid "a" < "c") reappears: following the emitted cursors to
end-of-results, the concatenation lists "at://p/a" twice — the
pagination does not deliver every qualifying item exactly once with no
duplicates. -/
theorem c2_pagination_counterexample :
    ((get_posts defaultConfig [c4_post, c2_post_b, c2_post_c] 10 43200
        half_decay_col none 2).1.map FeedRow.uri = ["at://p/a", "at://p/b"]
      ∧ (get_posts defaultConfig [c4_post, c2_post_b, c2_post_c] 10 43200
        half_decay_col none 2).2 = "0::c")
    ∧ ((get_posts defaultConfig [c4_post, c2_post_b, c2_post_c] 10 43200
        half_decay_col (some "0::c") 2).1.map FeedRow.uri
          = ["at://p/a", "at://p/c"]
      ∧ (get_posts defaultConfig [c4_post, c2_post_b, c2_post_c] 10 43200
        half_decay_col (some "0::c") 2).2 = CURSOR_EOF)
    ∧ (["at://p/a", "at://p/b"] ++ ["at://p/a", "at://p/c"]).count "at://p/a"
        = 2 := by
  have hlim : (min (max (1:ℤ) 2) 100).toNat = 2 := rfl
  have hts : intToString (int_trunc 0) ++ "::" ++ ("c" : String) = "0::c" := by
    decide
  refine ⟨⟨?_, ?_⟩, ⟨?_, ?_⟩, by decide⟩ <;>
    simp only [get_posts, c2_scored_eval, c2_handle_eval, hlim] <;>
    norm_num [hts, c2_next_cursor_eval, get_protocol_cursor,
      handle_protocol_cursor, List.take_succ_cons, List.take_zero,
      CURSOR_EOF, c2_rowA, c2_rowB, c2_rowC, FeedRow.mk.injEq]

/-- C9 (amended): an undecodable cursor never causes a crash and never
reaches the caller as a raw exception — but it is not a typed client
error either: `handle_protocol_cursor` catches the parse failure
(`ValueError`/`TypeError`), logs it, and proceeds as if no cursor had
been supplied, so the feed query returns the ordinary first page with a
success response identical to the cursorless query. -/
theorem c9_malformed_cursor_amended (c : String)
    (hc : parse_cursor c = none) :
    (∀ df : List ScoredRow, handle_protocol_cursor df (some c) = df)
    ∧ (∀ (cfg : RankConfig) (posts : List Post) (total_authors : ℕ)
        (now : ℚ) (decay_col : ℚ → ℚ) (limit : ℤ),
        get_posts cfg posts total_authors now decay_col (some c) limit
          = get_posts cfg posts total_authors now decay_col none limit)
    ∧ (∀ (cfg : RankConfig) (posts : List Post) (total_authors : ℕ)
        (now : ℚ) (decay_col : ℚ → ℚ) (limit : ℤ),
        1 ≤ limit → limit ≤ 100 →
        get_feed_skeleton cfg posts total_authors now decay_col true
            (some c) limit
          = SkeletonResponse.ok
              (get_posts cfg posts total_authors now decay_col none limit).2
              ((get_posts cfg posts total_authors now decay_col none
                limit).1.map FeedRow.uri)) := by
  have h1 : ∀ df : List ScoredRow, handle_protocol_cursor df (some c) = df := by
    intro df
    simp only [handle_protocol_cursor]
    split_ifs with h
    · rfl
    · rw [hc]
  have h2 : ∀ (cfg : RankConfig) (posts : List Post) (total_authors : ℕ)
      (now : ℚ) (decay_col : ℚ → ℚ) (limit : ℤ),
      get_posts cfg posts total_authors now decay_col (some c) limit
        = get_posts cfg posts total_authors now decay_col none limit := by
    intro cfg posts total_authors now decay_col limit
    have h0 : ∀ df : List ScoredRow, handle_protocol_cursor df none = df :=
      fun _ => rfl
    simp only [get_posts, h1, h0]
  refine ⟨h1, h2, ?_⟩
  intro cfg posts total_authors now decay_col limit hl1 hl2
  simp only [get_feed_skeleton]
  rw [if_neg (by simp), if_neg (by omega), h2]

/-- Witness for C9 (amended) at the concrete malformed cursor
`"garbage"`: the cursor filter is the identity, the paginated query
equals the cursorless query, and the feed-skeleton response is the
success body. -/
theorem c9_malformed_cursor_amended_witness :
    parse_cursor "garbage" = none
    ∧ handle_protocol_cursor [c2_rowA] (some "garbage") = [c2_rowA]
    ∧ get_posts defaultConfig [c4_post] 10 43200 half_decay_col
        (some "garbage") 20
      = get_posts defaultConfig [c4_post] 10 43200 half_decay_col none 20
    ∧ get_feed_skeleton defaultConfig [c4_post] 10 43200 half_decay_col true
        (some "garbage") 20
      = SkeletonResponse.ok
          (get_posts defaultConfig [c4_post] 10 43200 half_decay_col
            none 20).2
          ((get_posts defaultConfig [c4_post] 10 43200 half_decay_col
            none 20).1.map FeedRow.uri) := by
  have hg : parse_cursor "garbage" = none := by decide
  exact ⟨hg, (c9_malformed_cursor_amended "garbage" hg).1 [c2_rowA],
    (c9_malformed_cursor_amended "garbage" hg).2.1 defaultConfig [c4_post]
      10 43200 half_decay_col 20,
    (c9_malformed_cursor_amended "garbage" hg).2.2 defaultConfig [c4_post]
      10 43200 half_decay_col 20 (by norm_num) (by norm_num)⟩

/-- C9 (counterexample to the claim as stated): the malformed cursor
`"garbage"` (no `"::"` separator, so `cursor.split` raises `ValueError`)
does not produce a typed client error: the exception is caught inside
`handle_protocol_cursor`, the filter is skipped, and the feed query
answers with the ordinary 200 first-page body — here the full singleton
feed and the end-of-results cursor — not with the 400 "Malformed cursor"
response of the route's unreachable `ValueError` handler. -/
theorem c9_malformed_cursor_counterexample :
    get_feed_skeleton defaultConfig [c4_post] 10 43200 half_decay_col true
        (some "garbage") 20
      = SkeletonResponse.ok CURSOR_EOF ["at://p/a"]
    ∧ get_feed_skeleton defaultConfig [c4_post] 10 43200 half_decay_col true
        (some "garbage") 20
      ≠ SkeletonResponse.clientError "Malformed cursor" := by
  have hg : parse_cursor "garbage" = none := by decide
  have hok : get_feed_skeleton defaultConfig [c4_post] 10 43200 half_decay_col
      true (some "garbage") 20 = SkeletonResponse.ok CURSOR_EOF ["at://p/a"] := by
    simp only [get_feed_skeleton]
    rw [if_neg (by simp), if_neg (by omega)]
    norm_num [get_posts, get_scored_posts, build_base_df, normalize_scores,
      calculate_final_scores, col_max, quorum_score_of, calculate_velocity,
      sort_rows, insert_row, half_decay_col, defaultConfig,
      handle_protocol_cursor, get_protocol_cursor, hg, CURSOR_EOF,
      List.filterMap_cons, List.filter_cons, c4_post,
      show Int.toNat 20 = 20 from rfl,
      show (min (max (1:ℤ) 20) 100).toNat = 20 from rfl]
    try rw [List.take_of_length_le (by norm_num)]
    try norm_num
  exact ⟨hok, by rw [hok]; simp⟩

/-- Fully qualifying commit event used by the C7 witness: a trusted
actor's like of a subject post. -/
def c7_event : JetEvent :=
  { kind := some "commit", did := some "did:a",
    commit := some
      { collection := some "app.bsky.feed.like",
        operation := some "create",
        record := some
          { rtype := some "app.bsky.feed.like",
            subject_uri := some "at://p/x" } } }

/-- Witness for C7 (amended) at concrete events: the qualifying like
event produces the (subject, "like", actor) triple, and a non-commit
event is discarded silently. -/
theorem c7_filter_amended_witness :
    (process_event ["did:a"] c7_event).1 = some ("at://p/x", "like", "did:a")
      ∧ process_event ["did:a"] { kind := some "identity" } = (none, false) := by
  constructor
  · apply ((c7_filter_amended ["did:a"] c7_event).1 "at://p/x" "like"
      "did:a").mpr
    refine ⟨rfl, _, rfl, rfl, by decide, "app.bsky.feed.like", rfl,
      by decide, rfl, rfl, by decide, by decide, by decide⟩
  · exact (c7_filter_amended ["did:a"] { kind := some "identity" }).2
      (by decide)
